import Mathlib

/-!
Verification of the `logging` single-header library (`logging.hpp`).

The C++ source is shallowly embedded: the process-wide singleton
`detail::State` becomes an explicit `State` value threaded through the
functions, the `std::atomic` loads/stores become plain field reads and
record updates (the single-state model; memory-order questions are out
of scope of this embedding), `std::stringstream` accumulation becomes
`String` concatenation, and the environment-derived data (wall-clock
time, thread id) become explicit parameters.
-/

namespace Logging

/-- Severity levels, from `enum class Level : int` in `logging.hpp`
(TRACE = 0 .. FATAL = 5). -/
inductive Level
  | TRACE
  | DEBUG
  | INFO
  | WARN
  | ERROR
  | FATAL
deriving DecidableEq

/-- The underlying `int` value of each enumerator, exactly the values
written in the source (`TRACE = 0, ..., FATAL = 5`).  Comparisons on
`Level` in the source compare these values, which realises the spec
ordering TRACE < DEBUG < INFO < WARN < ERROR < FATAL. -/
def Level.toInt : Level → Int
  | .TRACE => 0
  | .DEBUG => 1
  | .INFO => 2
  | .WARN => 3
  | .ERROR => 4
  | .FATAL => 5

/-- The four configuration fields of `detail::State`. -/
structure State where
  current_level : Level
  include_location : Bool
  include_thread_id : Bool
  use_colours : Bool
deriving DecidableEq

/-- The member initialisers of `detail::State`: the configuration in
force at first access, before any setter runs
(`current_level{Level::INFO}`, `include_location{false}`,
`include_thread_id{true}`, `use_colours{true}`). -/
def initialState : State :=
  { current_level := Level.INFO
    include_location := false
    include_thread_id := true
    use_colours := true }

/-- `detail::get_colour_code`: ANSI SGR parameter string per level. -/
def get_colour_code : Level → String
  | .TRACE => "90"
  | .DEBUG => "36"
  | .INFO => "37"
  | .WARN => "33"
  | .ERROR => "31"
  | .FATAL => "41;97"

/-- `detail::get_level_name`: upper-case display name per level. -/
def get_level_name : Level → String
  | .TRACE => "TRACE"
  | .DEBUG => "DEBUG"
  | .INFO => "INFO"
  | .WARN => "WARN"
  | .ERROR => "ERROR"
  | .FATAL => "FATAL"

/-- `logging::set_level`: stores the new level in `current_level`. -/
def set_level (s : State) (level : Level) : State :=
  { s with current_level := level }

/-- `logging::set_include_location`. -/
def set_include_location (s : State) (enable : Bool) : State :=
  { s with include_location := enable }

/-- `logging::set_include_thread_id`. -/
def set_include_thread_id (s : State) (enable : Bool) : State :=
  { s with include_thread_id := enable }

/-- `logging::set_use_colours`. -/
def set_use_colours (s : State) (enable : Bool) : State :=
  { s with use_colours := enable }

/-- `logging::get_level`: loads `current_level`. -/
def get_level (s : State) : Level :=
  s.current_level

/-- `detail::is_level_enabled`: `level >= current_level`, comparing the
underlying `int` values. -/
def is_level_enabled (s : State) (level : Level) : Bool :=
  decide (s.current_level.toInt ≤ level.toInt)

/-- The public configuration functions declared in `logging.hpp`
outside the `detail` namespace (lines 180-204): four setters and the
single getter `get_level`.  No other configuration accessor is
declared in the header. -/
def publicConfigApi : List String :=
  ["set_level", "set_include_location", "set_include_thread_id",
   "set_use_colours", "get_level"]

/-- One decimal digit character; applied only to values `< 10`
(`n % 10` below), where it agrees with the decimal digits the C++
stream `operator<<` prints. -/
def digitChar : Nat → Char
  | 0 => '0'
  | 1 => '1'
  | 2 => '2'
  | 3 => '3'
  | 4 => '4'
  | 5 => '5'
  | 6 => '6'
  | 7 => '7'
  | 8 => '8'
  | _ => '9'

/-- Decimal digit list of a natural number, most significant first,
as printed by the C++ stream `operator<<` for a non-negative integer. -/
def natToDigits (n : Nat) : List Char :=
  if n < 10 then [digitChar n]
  else natToDigits (n / 10) ++ [digitChar (n % 10)]
termination_by n
decreasing_by exact Nat.div_lt_self (by omega) (by omega)

/-- Decimal rendering of an `int` by the C++ stream `operator<<`. -/
def intToDecimal (i : Int) : String :=
  if i < 0 then "-" ++ String.mk (natToDigits i.natAbs)
  else String.mk (natToDigits i.natAbs)

/-- `std::setfill('0')` / `std::setw(width)`: pad on the left with
zeros up to `width` (a longer argument is not truncated). -/
def padZerosL (width : Nat) (cs : List Char) : List Char :=
  List.replicate (width - cs.length) '0' ++ cs

/-- The broken-down local time produced by `std::localtime`. -/
structure Tm where
  year : Nat
  month : Nat
  day : Nat
  hour : Nat
  minute : Nat
  second : Nat

/-- Ranges `std::localtime` guarantees for a contemporary wall-clock
reading (four-digit year; calendar field bounds, with 60 admitted for
a leap second). -/
abbrev validTm (t : Tm) : Prop :=
  1000 ≤ t.year ∧ t.year ≤ 9999 ∧ t.month ≤ 12 ∧ t.day ≤ 31 ∧
    t.hour ≤ 23 ∧ t.minute ≤ 59 ∧ t.second ≤ 60

/-- `detail::format_timestamp`, over an explicit clock reading: the
broken-down local time `t` printed with `std::put_time` format
`%Y-%m-%d %H:%M:%S` (year unpadded, all other fields zero-padded to
two digits), then `'.'` and the epoch-millisecond count modulo 1000
zero-padded to three digits (`std::setw(3)`, `std::setfill('0')`). -/
def format_timestamp (t : Tm) (epochMs : Nat) : String :=
  String.mk (natToDigits t.year) ++ "-" ++
    String.mk (padZerosL 2 (natToDigits t.month)) ++ "-" ++
    String.mk (padZerosL 2 (natToDigits t.day)) ++ " " ++
    String.mk (padZerosL 2 (natToDigits t.hour)) ++ ":" ++
    String.mk (padZerosL 2 (natToDigits t.minute)) ++ ":" ++
    String.mk (padZerosL 2 (natToDigits t.second)) ++ "." ++
    String.mk (padZerosL 3 (natToDigits (epochMs % 1000)))

/-- `detail::ThreadLocalBuffer::get`, translated faithfully.  Input:
the contents of the thread-local `stream_` member.  Output: the
contents after the body ran, and the value handed back to the caller.
The body executes `stream_.clear(); stream_.str("")` — resetting the
member — and then falls off the end of a function declared to return
`std::stringstream&` without any `return` statement, so no stream
reference is returned (`none`). -/
def threadLocalBufferGet (_streamContents : String) : String × Option String :=
  ("", none)

/-- Message construction as the surrounding code intends it (the spec
baseline for the buffer helper: reset the buffer, then
`(buffer << ... << args)` and `buffer.str()`): the message parts,
already converted to text, concatenated in call order with no
separator.  The source's `ThreadLocalBuffer::get` lacks its `return`
statement; that defect is recorded at `threadLocalBufferGet` and does
not change what the fold would accumulate. -/
def formatMessage (parts : List String) : String :=
  String.join parts

/-- Lines 117-171 of `logging.hpp` (`detail::log_impl`) with the
message string (line 128's `message`) and the environment-derived
timestamp and thread-id strings as parameters: early-exit when
`level < current_level`, otherwise the log line is accumulated in
source order — optional colour-start, bracketed timestamp, optional
bracketed thread id, bracketed level name, message, optional
location suffix, optional colour-reset, newline — and handed to the
sink (`some line`). -/
def log_impl (s : State) (level : Level) (file : String) (line : Int)
    (ts tid msg : String) : Option String :=
  if level.toInt < s.current_level.toInt then
    none
  else
    let use_colours := s.use_colours
    let l0 : String := ""
    let l1 := if use_colours then l0 ++ "\x1b[" ++ get_colour_code level ++ "m" else l0
    let l2 := l1 ++ "[" ++ ts ++ "]"
    let l3 := if s.include_thread_id then l2 ++ " [" ++ tid ++ "]" else l2
    let l4 := l3 ++ " [" ++ get_level_name level ++ "] "
    let l5 := l4 ++ msg
    let l6 := if s.include_location
      then l5 ++ " (" ++ file ++ ":" ++ intToDecimal line ++ ")" else l5
    let l7 := if use_colours then l6 ++ "\x1b[0m" else l6
    some (l7 ++ "\n")

/-- One message-part argument of a `LOG_*` call, as an effectful
computation: forcing it transforms an effect counter and yields the
part's text.  The counter stands for any side effect the argument
expression performs, so "the argument was never evaluated" is
"the counter is unchanged". -/
def evalArgs (effects : Nat) : List (Nat → Nat × String) → Nat × List String
  | [] => (effects, [])
  | f :: fs =>
    let r := f effects
    let rest := evalArgs r.1 fs
    (rest.1, r.2 :: rest.2)

/-- The `LOG_TRACE` .. `LOG_FATAL` macros: test
`detail::is_level_enabled(level)`, and only in the enabled branch
evaluate the argument expressions and call `detail::log_impl` on
them.  Returns the final effect counter and what reached the sink. -/
def logGate (s : State) (level : Level) (file : String) (line : Int)
    (ts tid : String) (args : List (Nat → Nat × String)) (effects : Nat) :
    Nat × Option String :=
  if is_level_enabled s level then
    let forced := evalArgs effects args
    (forced.1, log_impl s level file line ts tid (formatMessage forced.2))
  else
    (effects, none)

/-- The output grammar of the spec, assembled as one segment list:
`[ESC-colour]? [timestamp] [thread-id]? [LEVELNAME] message
( file : line )? [ESC-reset]? newline`, each optional segment present
exactly when its configuration flag is set.  Modelled from the spec's
output-format words, to be compared with `log_impl`. -/
def composeLine (s : State) (level : Level) (file : String) (line : Int)
    (ts tid msg : String) : String :=
  String.join
    [if s.use_colours then "\x1b[" ++ get_colour_code level ++ "m" else "",
     "[" ++ ts ++ "]",
     if s.include_thread_id then " [" ++ tid ++ "]" else "",
     " [" ++ get_level_name level ++ "] ",
     msg,
     if s.include_location then " (" ++ file ++ ":" ++ intToDecimal line ++ ")" else "",
     if s.use_colours then "\x1b[0m" else "",
     "\n"]

/-- A C++ `std::ostream` as the sink sees it: the bytes accepted so
far, the `badbit` error flag, and whether the stream's exception mask
requests `ios_base::failure` on error.  `std::cerr` is used with the
default mask (`goodbit`), i.e. `throwOnFail = false`; nothing in
`logging.hpp` calls `exceptions()`. -/
structure OStream where
  contents : String
  badbit : Bool
  throwOnFail : Bool

/-- `operator<<` followed by `flush()` on an `OStream`: with `badbit`
already set the write is ignored; otherwise `deviceOk` says whether
the underlying device accepts the bytes, and on failure `badbit` is
set.  In either failure case an exception is raised only when the
exception mask requests it. -/
def ostreamWrite (st : OStream) (text : String) (deviceOk : Bool) :
    OStream × Except String Unit :=
  if st.badbit then
    (st, if st.throwOnFail then Except.error "ios_base::failure" else Except.ok ())
  else if deviceOk then
    ({ st with contents := st.contents ++ text }, Except.ok ())
  else
    ({ st with badbit := true },
     if st.throwOnFail then Except.error "ios_base::failure" else Except.ok ())

/-- Lines 165-170 of `log_impl` joined to the formatting path: if the
call produced a line, write it to the sink stream under the output
mutex (`std::cerr << log_line.str(); std::cerr.flush();`); the
source wraps nothing in `try`, so an exception from the stream would
propagate to the logging caller unchanged. -/
def logWithSink (s : State) (level : Level) (file : String) (line : Int)
    (ts tid msg : String) (st : OStream) (deviceOk : Bool) :
    OStream × Except String Unit :=
  match log_impl s level file line ts tid msg with
  | none => (st, Except.ok ())
  | some logLine =>
    let w := ostreamWrite st logLine deviceOk
    (w.1, w.2)

/-- The fold `(buffer << ... << args)` on line 127 of `log_impl`, over
message parts whose conversion to text may throw: each part is either
`ok` its text or `error` the C++ exception its user-supplied
`operator<<` raises.  Parts are converted left to right and the first
exception aborts the fold; nothing in `logging.hpp` is wrapped in
`try`, so that exception leaves `log_impl`. -/
def foldParts : List (Except String String) → Except String (List String)
  | [] => Except.ok []
  | Except.error e :: _ => Except.error e
  | Except.ok t :: rest =>
    match foldParts rest with
    | Except.error e => Except.error e
    | Except.ok ts => Except.ok (t :: ts)

/-- The full caller-visible path of one macro log call, with the C++
exception behavior explicit: the macro's enablement check, then inside
`log_impl` the message fold over possibly-throwing parts, then the
line composition and the sink write.  The source contains no
`try`/`catch`, so the first throwing part conversion propagates to the
logging caller as `Except.error`; the disabled path touches nothing. -/
def logCallExn (s : State) (level : Level) (file : String) (line : Int)
    (ts tid : String) (parts : List (Except String String))
    (st : OStream) (deviceOk : Bool) : OStream × Except String Unit :=
  if is_level_enabled s level then
    match foldParts parts with
    | Except.error e => (st, Except.error e)
    | Except.ok texts =>
      logWithSink s level file line ts tid (formatMessage texts) st deviceOk
  else
    (st, Except.ok ())

/-- The C++ argument type list a `log_impl` call is instantiated at
(string literals arrive as `const char (&)[n]`, hence `charArray n`). -/
inductive CppType
  | charArray (n : Nat)
  | stdString
  | intType
  | doubleType
deriving DecidableEq

/-- `output_mutex` is declared `static` inside the variadic function
template `log_impl`, so C++ gives every distinct instantiation (every
distinct argument type list) its own mutex object.  Two concurrent
sink writes are mutually excluded exactly when their calls lock the
same mutex, i.e. instantiate `log_impl` at the same type list. -/
def sameOutputMutex (a b : List CppType) : Bool :=
  decide (a = b)

/-- Decimal digit character test (`[0-9]`, i.e. code points 48-57). -/
def isDigitChar (c : Char) : Bool :=
  decide (48 ≤ c.toNat) && decide (c.toNat ≤ 57)

/-- One element of a fixed-width character pattern: a decimal digit
class or one literal character. -/
inductive PatElem
  | dig
  | lit (c : Char)

/-- Whether one character matches one pattern element. -/
def elemMatch (c : Char) : PatElem → Bool
  | .dig => isDigitChar c
  | .lit d => decide (c = d)

/-- Whether a character list matches a pattern elementwise (equal
length, each character in its element's class). -/
def matchesPat : List Char → List PatElem → Bool
  | [], [] => true
  | [], _ :: _ => false
  | _ :: _, [] => false
  | c :: cs, p :: ps => elemMatch c p && matchesPat cs ps

/-- The spec's timestamp pattern
`\d\d\d\d-\d\d-\d\d \d\d:\d\d:\d\d.\d\d\d`. -/
def timestampPat : List PatElem :=
  [.dig, .dig, .dig, .dig, .lit '-', .dig, .dig, .lit '-', .dig, .dig,
   .lit ' ', .dig, .dig, .lit ':', .dig, .dig, .lit ':', .dig, .dig,
   .lit '.', .dig, .dig, .dig]

theorem stringExt {a b : String} (h : a.data = b.data) : a = b := by
  cases a
  cases b
  exact congrArg String.mk h

theorem stringDataAppend (a b : String) : (a ++ b).data = a.data ++ b.data := by
  cases a
  cases b
  rfl

theorem stringDataMk (cs : List Char) : (String.mk cs).data = cs :=
  rfl

/-- C9: at process start, before any setter is called, the
configuration has minimum level INFO, include_thread_id true,
include_location false, and use_colours true. -/
theorem initial_config_defaults :
    initialState.current_level = Level.INFO ∧
      initialState.include_thread_id = true ∧
      initialState.include_location = false ∧
      initialState.use_colours = true :=
  ⟨rfl, rfl, rfl, rfl⟩

/-- C8: each configuration setter modifies only its own field: for
every prior state, the other three fields are unchanged after
`set_level`, `set_include_location`, `set_include_thread_id` and
`set_use_colours` respectively. -/
theorem setters_frame (s : State) (l : Level) (b1 b2 b3 : Bool) :
    ((set_level s l).include_location = s.include_location ∧
        (set_level s l).include_thread_id = s.include_thread_id ∧
        (set_level s l).use_colours = s.use_colours) ∧
      ((set_include_location s b1).current_level = s.current_level ∧
        (set_include_location s b1).include_thread_id = s.include_thread_id ∧
        (set_include_location s b1).use_colours = s.use_colours) ∧
      ((set_include_thread_id s b2).current_level = s.current_level ∧
        (set_include_thread_id s b2).include_location = s.include_location ∧
        (set_include_thread_id s b2).use_colours = s.use_colours) ∧
      ((set_use_colours s b3).current_level = s.current_level ∧
        (set_use_colours s b3).include_location = s.include_location ∧
        (set_use_colours s b3).include_thread_id = s.include_thread_id) :=
  ⟨⟨rfl, rfl, rfl⟩, ⟨rfl, rfl, rfl⟩, ⟨rfl, rfl, rfl⟩, ⟨rfl, rfl, rfl⟩⟩

/-- C5 counterexample: the header's public configuration surface
(`publicConfigApi`, lines 180-204 of `logging.hpp`) has a getter only
for the minimum level; no getter for the include-location,
include-thread-id or use-colours settings is declared, so "a
corresponding getter for each of the four settings" is false. -/
theorem publicConfigApi_missing_getters :
    publicConfigApi.contains "get_include_location" = false ∧
      publicConfigApi.contains "get_include_thread_id" = false ∧
      publicConfigApi.contains "get_use_colours" = false ∧
      publicConfigApi.contains "get_level" = true := by
  decide

/-- C5 amended: each of the four setters stores its argument into its
field, and for the one setting that has a public getter — the minimum
level — the set/get round-trip holds: `get_level (set_level s v) = v`. -/
theorem setter_stores_level_roundtrip (s : State) (l : Level) (b1 b2 b3 : Bool) :
    get_level (set_level s l) = l ∧
      (set_include_location s b1).include_location = b1 ∧
      (set_include_thread_id s b2).include_thread_id = b2 ∧
      (set_use_colours s b3).use_colours = b3 :=
  ⟨rfl, rfl, rfl, rfl⟩

/-- C1: a log call made through the macros at severity `level` hands a
record to the sink if and only if `level >= current_level` in the
underlying `int` order, which is exactly the spec ordering
TRACE < DEBUG < INFO < WARN < ERROR < FATAL (values 0..5). -/
theorem logGate_writes_iff_enabled (s : State) (level : Level) (file : String)
    (line : Int) (ts tid : String) (args : List (Nat → Nat × String))
    (effects : Nat) :
    ((logGate s level file line ts tid args effects).2).isSome = true ↔
      s.current_level.toInt ≤ level.toInt := by
  unfold logGate is_level_enabled log_impl
  by_cases h : s.current_level.toInt ≤ level.toInt
  · have h2 : ¬ (level.toInt < s.current_level.toInt) := by omega
    simp [h, h2]
  · simp [h]

/-- C2: a macro log call at a disabled severity returns without
evaluating any message-part argument: the effect counter is unchanged
and nothing reaches the sink. -/
theorem logGate_disabled_skips_args (s : State) (level : Level) (file : String)
    (line : Int) (ts tid : String) (args : List (Nat → Nat × String))
    (effects : Nat) (h : is_level_enabled s level = false) :
    logGate s level file line ts tid args effects = (effects, none) := by
  unfold logGate
  simp [h]

theorem logGate_disabled_skips_args_witness :
    is_level_enabled initialState Level.TRACE = false ∧
      logGate initialState Level.TRACE "x.cpp" 42 "2026-10-11 12:00:00.000"
        "140123" [fun e => (e + 1, "expensive")] 0 = (0, none) :=
  ⟨by decide,
   logGate_disabled_skips_args initialState Level.TRACE "x.cpp" 42
     "2026-10-11 12:00:00.000" "140123" [fun e => (e + 1, "expensive")] 0
     (by decide)⟩

/-- C3 (code defect): `ThreadLocalBuffer::get` is declared to return
`std::stringstream&` but its body only resets the stream and has no
`return` statement, so no stream value reaches `log_impl`; the message
concatenation the claim asserts is not established by the code. -/
theorem threadLocalBufferGet_returns_nothing (c : String) :
    (threadLocalBufferGet c).2 = none :=
  rfl

/-- C6 (code defect): `output_mutex` is a `static` local of the
variadic template `log_impl`, so the instantiation for a string
literal argument (`charArray 6`, e.g. `LOG_INFO("hello")`) and the
instantiation for a `std::string` argument lock different mutexes;
their sink writes are not mutually excluded. -/
theorem outputMutex_not_shared_across_instantiations :
    sameOutputMutex [CppType.charArray 6] [CppType.stdString] = false := by
  decide

/-- Helper for the sink path: with the stream's exception mask at its
default (as for `std::cerr`, which the source never changes), the
line-composition-plus-write step returns normally for every
configuration, severity, message string, stream state and device
outcome — a failed write at worst sets `badbit` and drops the
record. -/
theorem log_call_never_raises (s : State) (level : Level) (file : String)
    (line : Int) (ts tid msg : String) (st : OStream) (deviceOk : Bool)
    (h : st.throwOnFail = false) :
    (logWithSink s level file line ts tid msg st deviceOk).2 = Except.ok () := by
  unfold logWithSink ostreamWrite
  cases hlog : log_impl s level file line ts tid msg with
  | none => rfl
  | some l =>
    simp only [h]
    split
    · rfl
    · split
      · rfl
      · rfl

theorem stringDataEmpty : ("" : String).data = [] :=
  rfl

/-- C4: every line `log_impl` hands to the sink is composed exactly
as the spec grammar says — optional colour-start iff `use_colours`,
bracketed timestamp, optional bracketed thread id iff
`include_thread_id`, space-bracketed upper-case level name, message,
optional ` (file:line)` iff `include_location`, optional colour-reset
iff `use_colours`, one trailing newline — and nothing is emitted on a
disabled level. -/
theorem log_impl_matches_grammar (s : State) (level : Level) (file : String)
    (line : Int) (ts tid msg : String) :
    log_impl s level file line ts tid msg =
      if is_level_enabled s level then
        some (composeLine s level file line ts tid msg)
      else none := by
  unfold log_impl composeLine is_level_enabled
  by_cases h : s.current_level.toInt ≤ level.toInt
  · have h2 : ¬ (level.toInt < s.current_level.toInt) := by omega
    rw [if_neg h2, if_pos (by simpa using h)]
    cases hu : s.use_colours <;> cases ht : s.include_thread_id <;>
      cases hl : s.include_location <;>
        simp [hu, ht, hl, String.join, String.ext_iff, stringDataAppend,
          stringDataEmpty]
  · have h2 : level.toInt < s.current_level.toInt := by omega
    simp [h, h2]

theorem dashData : ("-" : String).data = ['-'] :=
  rfl

theorem spaceData : (" " : String).data = [' '] :=
  rfl

theorem colonData : (":" : String).data = [':'] :=
  rfl

theorem dotData : ("." : String).data = ['.'] :=
  rfl

theorem isDigit_digitChar : ∀ n, isDigitChar (digitChar n) = true
  | 0 => by decide
  | 1 => by decide
  | 2 => by decide
  | 3 => by decide
  | 4 => by decide
  | 5 => by decide
  | 6 => by decide
  | 7 => by decide
  | 8 => by decide
  | _ + 9 => rfl

theorem natToDigits_length_le : ∀ (k n : Nat), n < 10 ^ (k + 1) →
    (natToDigits n).length ≤ k + 1 := by
  intro k
  induction k with
  | zero =>
    intro n hn
    rw [natToDigits.eq_def, if_pos (by omega)]
    simp
  | succ k ih =>
    intro n hn
    rw [natToDigits.eq_def]
    by_cases h : n < 10
    · rw [if_pos h]
      simp
    · rw [if_neg h]
      have hd : n / 10 < 10 ^ (k + 1) := by
        rw [Nat.div_lt_iff_lt_mul (by omega)]
        calc n < 10 ^ (k + 2) := hn
          _ = 10 ^ (k + 1) * 10 := by ring
      have := ih (n / 10) hd
      simp only [List.length_append, List.length_singleton]
      omega

theorem natToDigits_length_ge : ∀ (k n : Nat), 10 ^ k ≤ n →
    k + 1 ≤ (natToDigits n).length := by
  intro k
  induction k with
  | zero =>
    intro n _
    rw [natToDigits.eq_def]
    by_cases h : n < 10
    · rw [if_pos h]
      simp
    · rw [if_neg h]
      simp
  | succ k ih =>
    intro n hn
    have h10 : ¬ (n < 10) := by
      have hp : (10 : Nat) ^ 1 ≤ 10 ^ (k + 1) :=
        Nat.pow_le_pow_right (by omega) (by omega)
      simp only [pow_one] at hp
      omega
    rw [natToDigits.eq_def, if_neg h10]
    have hd : 10 ^ k ≤ n / 10 := by
      rw [Nat.le_div_iff_mul_le (by omega)]
      calc 10 ^ k * 10 = 10 ^ (k + 1) := by ring
        _ ≤ n := hn
    have := ih (n / 10) hd
    simp only [List.length_append, List.length_singleton]
    omega

theorem natToDigits_digits : ∀ (n : Nat), ∀ c ∈ natToDigits n,
    isDigitChar c = true := by
  intro n
  induction n using Nat.strong_induction_on with
  | _ n ih =>
    rw [natToDigits.eq_def]
    by_cases h : n < 10
    · rw [if_pos h]
      intro c hc
      simp only [List.mem_singleton] at hc
      subst hc
      exact isDigit_digitChar n
    · rw [if_neg h]
      intro c hc
      rw [List.mem_append] at hc
      rcases hc with hc | hc
      · exact ih (n / 10) (Nat.div_lt_self (by omega) (by omega)) c hc
      · simp only [List.mem_singleton] at hc
        subst hc
        exact isDigit_digitChar (n % 10)

theorem padZerosL_length (w : Nat) (cs : List Char) (h : cs.length ≤ w) :
    (padZerosL w cs).length = w := by
  simp [padZerosL]
  omega

theorem padZerosL_digits (w : Nat) (cs : List Char)
    (h : ∀ c ∈ cs, isDigitChar c = true) :
    ∀ c ∈ padZerosL w cs, isDigitChar c = true := by
  intro c hc
  rw [padZerosL, List.mem_append] at hc
  rcases hc with hc | hc
  · rw [List.eq_of_mem_replicate hc]
    decide
  · exact h c hc

theorem matchesPat_digits : ∀ (cs : List Char),
    (∀ c ∈ cs, isDigitChar c = true) →
    matchesPat cs (List.replicate cs.length PatElem.dig) = true := by
  intro cs
  induction cs with
  | nil =>
    intro _
    rfl
  | cons c cs ih =>
    intro h
    simp only [List.length_cons, List.replicate_succ, matchesPat, elemMatch,
      Bool.and_eq_true]
    exact ⟨h c (by simp), ih (fun d hd => h d (by simp [hd]))⟩

theorem matchesPat_append : ∀ (cs1 : List Char) (ps1 : List PatElem)
    (cs2 : List Char) (ps2 : List PatElem),
    matchesPat cs1 ps1 = true → matchesPat cs2 ps2 = true →
    matchesPat (cs1 ++ cs2) (ps1 ++ ps2) = true := by
  intro cs1
  induction cs1 with
  | nil =>
    intro ps1 cs2 ps2 h1 h2
    cases ps1 with
    | nil => simpa using h2
    | cons p ps => simp [matchesPat] at h1
  | cons c cs ih =>
    intro ps1 cs2 ps2 h1 h2
    cases ps1 with
    | nil => simp [matchesPat] at h1
    | cons p ps =>
      simp only [matchesPat, Bool.and_eq_true] at h1
      simp only [List.cons_append, matchesPat, Bool.and_eq_true]
      exact ⟨h1.1, ih ps cs2 ps2 h1.2 h2⟩

theorem matchesPat_cons (c : Char) (p : PatElem) (cs : List Char)
    (ps : List PatElem) (h1 : elemMatch c p = true)
    (h2 : matchesPat cs ps = true) :
    matchesPat (c :: cs) (p :: ps) = true := by
  simp [matchesPat, h1, h2]

theorem padDigits_matches (w n : Nat) (hw : (natToDigits n).length ≤ w) :
    matchesPat (padZerosL w (natToDigits n)) (List.replicate w PatElem.dig) =
      true := by
  have h := matchesPat_digits (padZerosL w (natToDigits n))
    (padZerosL_digits w _ (natToDigits_digits n))
  rwa [padZerosL_length w _ hw] at h

/-- C10: for every valid local-time reading and every epoch-millisecond
count, the timestamp `format_timestamp` renders matches the fixed
pattern `\d{4}-\d{2}-\d{2} \d{2}:\d{2}:\d{2}\.\d{3}`; in particular the
millisecond field, `epochMs % 1000`, lies in 0..999 and is printed as
exactly three zero-padded digits. -/
theorem timestamp_matches_pattern (t : Tm) (epochMs : Nat) (h : validTm t) :
    matchesPat (format_timestamp t epochMs).data timestampPat = true := by
  obtain ⟨hy1, hy2, hm, hd, hh, hmin, hs⟩ := h
  have hylen : (natToDigits t.year).length = 4 := by
    have h1 := natToDigits_length_le 3 t.year (by omega)
    have h2 := natToDigits_length_ge 3 t.year (by omega)
    omega
  have hyear : matchesPat (natToDigits t.year)
      (List.replicate 4 PatElem.dig) = true := by
    have := matchesPat_digits (natToDigits t.year) (natToDigits_digits t.year)
    rwa [hylen] at this
  have hdata : (format_timestamp t epochMs).data =
      natToDigits t.year ++ '-' ::
        (padZerosL 2 (natToDigits t.month) ++ '-' ::
          (padZerosL 2 (natToDigits t.day) ++ ' ' ::
            (padZerosL 2 (natToDigits t.hour) ++ ':' ::
              (padZerosL 2 (natToDigits t.minute) ++ ':' ::
                (padZerosL 2 (natToDigits t.second) ++ '.' ::
                  padZerosL 3 (natToDigits (epochMs % 1000))))))) := by
    simp [format_timestamp, stringDataAppend, stringDataMk, dashData,
      spaceData, colonData, dotData]
  have hpat : timestampPat =
      List.replicate 4 PatElem.dig ++ PatElem.lit '-' ::
        (List.replicate 2 PatElem.dig ++ PatElem.lit '-' ::
          (List.replicate 2 PatElem.dig ++ PatElem.lit ' ' ::
            (List.replicate 2 PatElem.dig ++ PatElem.lit ':' ::
              (List.replicate 2 PatElem.dig ++ PatElem.lit ':' ::
                (List.replicate 2 PatElem.dig ++ PatElem.lit '.' ::
                  List.replicate 3 PatElem.dig))))) := by
    rfl
  rw [hdata, hpat]
  refine matchesPat_append _ _ _ _ hyear
    (matchesPat_cons _ _ _ _ (by decide) ?_)
  refine matchesPat_append _ _ _ _
    (padDigits_matches 2 t.month (natToDigits_length_le 1 _ (by omega)))
    (matchesPat_cons _ _ _ _ (by decide) ?_)
  refine matchesPat_append _ _ _ _
    (padDigits_matches 2 t.day (natToDigits_length_le 1 _ (by omega)))
    (matchesPat_cons _ _ _ _ (by decide) ?_)
  refine matchesPat_append _ _ _ _
    (padDigits_matches 2 t.hour (natToDigits_length_le 1 _ (by omega)))
    (matchesPat_cons _ _ _ _ (by decide) ?_)
  refine matchesPat_append _ _ _ _
    (padDigits_matches 2 t.minute (natToDigits_length_le 1 _ (by omega)))
    (matchesPat_cons _ _ _ _ (by decide) ?_)
  refine matchesPat_append _ _ _ _
    (padDigits_matches 2 t.second (natToDigits_length_le 1 _ (by omega)))
    (matchesPat_cons _ _ _ _ (by decide) ?_)
  exact padDigits_matches 3 (epochMs % 1000) (natToDigits_length_le 2 _ (by omega))

theorem timestamp_matches_pattern_witness :
    validTm (Tm.mk 2026 10 11 13 5 9) ∧
      matchesPat (format_timestamp (Tm.mk 2026 10 11 13 5 9) 1760187909123).data
        timestampPat = true :=
  ⟨by decide,
   timestamp_matches_pattern (Tm.mk 2026 10 11 13 5 9) 1760187909123 (by decide)⟩

theorem foldParts_all_ok : ∀ (parts : List (Except String String)),
    (∀ p ∈ parts, ∃ t, p = Except.ok t) →
    ∃ texts, foldParts parts = Except.ok texts := by
  intro parts
  induction parts with
  | nil =>
    intro _
    exact ⟨[], rfl⟩
  | cons p rest ih =>
    intro h
    obtain ⟨t, ht⟩ := h p (by simp)
    subst ht
    obtain ⟨texts, htexts⟩ := ih (fun q hq => h q (by simp [hq]))
    exact ⟨t :: texts, by simp [foldParts, htexts]⟩

/-- C7 counterexample: an enabled log call one of whose message parts
throws during conversion propagates that exception to the logging
caller — `log_impl`'s fold `(buffer << ... << args)` runs
caller-supplied `operator<<` and the source wraps nothing in a
`try` block. -/
theorem formatting_failure_propagates :
    (logCallExn initialState Level.INFO "x.cpp" 42 "ts" "tid"
      [Except.error "bad conversion"] (OStream.mk "" false false) true).2 =
      Except.error "bad conversion" :=
  rfl

/-- C7 amended: write failures do degrade silently — for every
configuration, severity, stream state and device outcome, if every
message part converts to text without throwing and the sink stream
keeps its default exception mask (as `std::cerr` does), the log call
returns normally to the caller, a failed device write at worst
dropping the record.  Error-freedom does not extend to a throwing
message-part conversion, which propagates (see the counterexample). -/
theorem log_call_no_raise_when_parts_ok (s : State) (level : Level)
    (file : String) (line : Int) (ts tid : String)
    (parts : List (Except String String)) (st : OStream) (deviceOk : Bool)
    (hmask : st.throwOnFail = false)
    (hparts : ∀ p ∈ parts, ∃ t, p = Except.ok t) :
    (logCallExn s level file line ts tid parts st deviceOk).2 =
      Except.ok () := by
  unfold logCallExn
  by_cases he : is_level_enabled s level = true
  · obtain ⟨texts, htexts⟩ := foldParts_all_ok parts hparts
    rw [if_pos he, htexts]
    exact log_call_never_raises s level file line ts tid
      (formatMessage texts) st deviceOk hmask
  · rw [if_neg he]

theorem log_call_no_raise_when_parts_ok_witness :
    (OStream.mk "" false false).throwOnFail = false ∧
      (∀ p ∈ ([Except.ok "hello"] : List (Except String String)),
        ∃ t, p = Except.ok t) ∧
      (logCallExn initialState Level.INFO "x.cpp" 42 "ts" "tid"
        [Except.ok "hello"] (OStream.mk "" false false) false).2 =
        Except.ok () :=
  ⟨rfl, by simp,
   log_call_no_raise_when_parts_ok initialState Level.INFO "x.cpp" 42 "ts"
     "tid" [Except.ok "hello"] (OStream.mk "" false false) false rfl (by simp)⟩

end Logging
